import Mathlib

/-!
Verification of the ResumeForge LLM-provider abstraction and analysis pipeline.

The definitions below are a shallow embedding of `server/services/analyzer.ts`
(class `ResumeAnalyzer`) and `server/services/llm.ts` (the four `LLMService`
implementations and the `createLLMService` factory), together with small models
of the JavaScript primitives they rely on (`JSON.parse`, `JSON.stringify`,
`String.prototype.includes`, `String.prototype.toLowerCase`, the `||` fallback
operator and regular-expression testing).
-/

namespace ResumeForge

/-! ### JavaScript string primitives -/

/-- Model of `String.prototype.toLowerCase` (character-wise lowering). -/
def lowerStr (s : String) : String :=
  String.mk (s.data.map Char.toLower)

/-- Boolean test that `n` occurs as a contiguous sublist of `h`. -/
def infixOfB (n : List Char) : List Char → Bool
  | [] => n.isPrefixOf []
  | c :: t => n.isPrefixOf (c :: t) || infixOfB n t

/-- Model of `String.prototype.includes`. -/
def includesStr (h n : String) : Bool :=
  infixOfB n.data h.data

/-- Split a character list at newline characters (for comparing prompt texts
line by line). -/
def splitLinesC : List Char → List (List Char)
  | [] => [[]]
  | c :: cs =>
    match splitLinesC cs with
    | [] => [[]]
    | l :: ls => if c = '\n' then [] :: l :: ls else (c :: l) :: ls

/-- Drop leading space characters of a line. -/
def dropLeadingSpaces : List Char → List Char
  | [] => []
  | c :: cs => if c = ' ' then dropLeadingSpaces cs else c :: cs

/-- Lines of a prompt with leading indentation removed. -/
def promptLines (s : String) : List (List Char) :=
  (splitLinesC s.data).map dropLeadingSpaces

/-- The `x || d` fallback JavaScript applies to possibly-absent strings:
`undefined`, `null` and `""` are all falsy. -/
def jsOr (v : Option String) (d : String) : String :=
  match v with
  | none => d
  | some s => if s = "" then d else s

/-! ### JSON values, `JSON.parse` and `JSON.stringify` -/

/-- JSON values (numbers restricted to integers, which is all this code base
ever produces or consumes in the modelled paths). -/
inductive Json where
  | null
  | bool (b : Bool)
  | num (n : Int)
  | str (s : String)
  | arr (elems : List Json)
  | obj (fields : List (String × Json))
deriving Repr, Inhabited

def quoteChar : Char := Char.ofNat 34

def backslashChar : Char := Char.ofNat 92

def braceOpenChar : Char := Char.ofNat 123

def braceCloseChar : Char := Char.ofNat 125

/-- Whitespace skipped between JSON tokens. -/
def skipWs : List Char → List Char
  | [] => []
  | c :: cs => if c = ' ' ∨ c = '\n' ∨ c = '\t' ∨ c = '\r' then skipWs cs else c :: cs

/-- Decode one JSON string escape character. -/
def unescapeChar (c : Char) : Option Char :=
  if c = quoteChar then some quoteChar
  else if c = backslashChar then some backslashChar
  else if c = '/' then some '/'
  else if c = 'n' then some '\n'
  else if c = 't' then some '\t'
  else if c = 'r' then some '\r'
  else if c = 'b' then some (Char.ofNat 8)
  else if c = 'f' then some (Char.ofNat 12)
  else none

/-- Parse the body of a JSON string literal (after the opening quote), up to
and including the closing quote. -/
def parseStrBody : Nat → List Char → Option (String × List Char)
  | 0, _ => none
  | _ + 1, [] => none
  | fuel + 1, c :: rest =>
    if c = quoteChar then some ("", rest)
    else if c = backslashChar then
      match rest with
      | [] => none
      | e :: rest' =>
        match unescapeChar e with
        | none => none
        | some ec => (parseStrBody fuel rest').map (fun p => (String.mk (ec :: p.1.data), p.2))
    else (parseStrBody fuel rest).map (fun p => (String.mk (c :: p.1.data), p.2))

/-- Accumulate decimal digits. -/
def digitsToNat (acc : Nat) : List Char → Nat × List Char
  | [] => (acc, [])
  | c :: cs => if c.isDigit then digitsToNat (acc * 10 + (c.toNat - 48)) cs else (acc, c :: cs)

/-- Parse an integer JSON number. -/
def parseNumFrom : List Char → Option (Json × List Char)
  | [] => none
  | '-' :: rest =>
    match rest with
    | [] => none
    | d :: _ =>
      if d.isDigit then
        let p := digitsToNat 0 rest
        some (Json.num (-(p.1 : Int)), p.2)
      else none
  | d :: rest =>
    if d.isDigit then
      let p := digitsToNat 0 (d :: rest)
      some (Json.num (p.1 : Int), p.2)
    else none

mutual

/-- Fuel-based recursive-descent parser for one JSON value. -/
def parseVal : Nat → List Char → Option (Json × List Char)
  | 0, _ => none
  | fuel + 1, cs₀ =>
    match skipWs cs₀ with
    | [] => none
    | c :: rest =>
      if c = braceOpenChar then
        match skipWs rest with
        | [] => none
        | d :: rest' =>
          if d = braceCloseChar then some (Json.obj [], rest')
          else (parseFields fuel (d :: rest')).map (fun p => (Json.obj p.1, p.2))
      else if c = '[' then
        match skipWs rest with
        | [] => none
        | d :: rest' =>
          if d = ']' then some (Json.arr [], rest')
          else (parseElems fuel (d :: rest')).map (fun p => (Json.arr p.1, p.2))
      else if c = quoteChar then
        (parseStrBody fuel rest).map (fun p => (Json.str p.1, p.2))
      else if c = '-' ∨ c.isDigit then parseNumFrom (c :: rest)
      else if "null".data.isPrefixOf (c :: rest) then some (Json.null, (c :: rest).drop 4)
      else if "true".data.isPrefixOf (c :: rest) then some (Json.bool true, (c :: rest).drop 4)
      else if "false".data.isPrefixOf (c :: rest) then some (Json.bool false, (c :: rest).drop 5)
      else none

/-- Parse the elements of a non-empty JSON array. -/
def parseElems : Nat → List Char → Option (List Json × List Char)
  | 0, _ => none
  | fuel + 1, cs =>
    match parseVal fuel cs with
    | none => none
    | some (v, r1) =>
      match skipWs r1 with
      | [] => none
      | d :: r2 =>
        if d = ',' then (parseElems fuel r2).map (fun p => (v :: p.1, p.2))
        else if d = ']' then some ([v], r2)
        else none

/-- Parse the fields of a non-empty JSON object. -/
def parseFields : Nat → List Char → Option (List (String × Json) × List Char)
  | 0, _ => none
  | fuel + 1, cs =>
    match cs with
    | [] => none
    | c :: rest =>
      if c = quoteChar then
        match parseStrBody fuel rest with
        | none => none
        | some (key, r1) =>
          match skipWs r1 with
          | ':' :: r2 =>
            match parseVal fuel r2 with
            | none => none
            | some (v, r3) =>
              match skipWs r3 with
              | [] => none
              | d :: r4 =>
                if d = ',' then (parseFields fuel (skipWs r4)).map (fun p => ((key, v) :: p.1, p.2))
                else if d = braceCloseChar then some ([(key, v)], r4)
                else none
          | _ => none
      else none

end

/-- Model of `JSON.parse`: succeeds only when the whole input is one JSON
value surrounded by whitespace; any other input throws in JavaScript, which
is modelled by `none`. -/
def Json.parse (s : String) : Option Json :=
  match parseVal (2 * s.data.length + 4) s.data with
  | none => none
  | some (v, rest) => if skipWs rest = [] then some v else none

/-- Field lookup on a parsed JSON object (`data.field` access). -/
def Json.getField : Json → String → Option Json
  | .obj fields, k => fields.lookup k
  | _, _ => none

/-- A `JSON.parse` call whose failure is a thrown exception. -/
def parseJsonE (s : String) : Except String Json :=
  match Json.parse s with
  | some j => Except.ok j
  | none => Except.error ("Unexpected token in JSON: " ++ s)

/-- Escape one character as `JSON.stringify` does for the characters this
code base can produce. -/
def escapeChar (c : Char) : List Char :=
  if c = quoteChar then [backslashChar, quoteChar]
  else if c = backslashChar then [backslashChar, backslashChar]
  else if c = '\n' then [backslashChar, 'n']
  else if c = '\t' then [backslashChar, 't']
  else if c = '\r' then [backslashChar, 'r']
  else [c]

/-- Render a string as a JSON string literal. -/
def jstr (s : String) : String :=
  String.mk (quoteChar :: (s.data.flatMap escapeChar) ++ [quoteChar])

/-- Render a JSON object from already-rendered optional members; `none`
members correspond to `undefined` properties, which `JSON.stringify` omits. -/
def objStr (parts : List (Option String)) : String :=
  "\x7b" ++ String.intercalate "," (parts.filterMap id) ++ "\x7d"

/-- Render a JSON array from already-rendered elements. -/
def arrStr (elems : List String) : String :=
  "[" ++ String.intercalate "," elems ++ "]"

/-- One `key:value` member whose value is a string. -/
def memberStr (k : String) (v : Option String) : Option String :=
  v.map (fun s => jstr k ++ ":" ++ jstr s)

/-- One `key:value` member whose value is already-rendered JSON text. -/
def memberRaw (k : String) (v : Option String) : Option String :=
  v.map (fun r => jstr k ++ ":" ++ r)

/-! ### Data model (`shared/schema.ts`) -/

/-- `personalDetailsSchema`: every field optional. -/
structure PersonalDetails where
  name : Option String
  email : Option String
  phone : Option String
  location : Option String
  summary : Option String
deriving Repr, DecidableEq

/-- `experienceSchema`. -/
structure Experience where
  title : String
  company : String
  duration : String
  description : String
  achievements : Option (List String)
deriving Repr, DecidableEq

/-- `educationSchema`. -/
structure Education where
  degree : String
  institution : String
  year : String
  gpa : Option String
deriving Repr, DecidableEq

/-- `skillsSchema`. -/
structure Skills where
  technical : Option (List String)
  soft : Option (List String)
  languages : Option (List String)
deriving Repr, DecidableEq

/-- A project entry of `parsedResumeSchema`. -/
structure Project where
  name : String
  description : String
  technologies : Option (List String)
deriving Repr, DecidableEq

/-- `parsedResumeSchema`: all sub-records optional. -/
structure ParsedResume where
  personalDetails : Option PersonalDetails
  experience : Option (List Experience)
  education : Option (List Education)
  skills : Option Skills
  projects : Option (List Project)
deriving Repr, DecidableEq

/-- Suggestion `type` enumeration of `analysisResultSchema`. -/
inductive SuggestionType where
  | warning
  | info
  | success
deriving Repr, DecidableEq

/-- One suggestion of `analysisResultSchema`. -/
structure Suggestion where
  type : SuggestionType
  title : String
  description : String
  sectionTag : Option String
deriving Repr, DecidableEq

/-- `analysisResultSchema`.  The `score` is carried as an unconstrained
integer because values arriving from an LLM backend are not validated
against the schema bounds before the analyzer runs. -/
structure AnalysisResult where
  score : Int
  suggestions : List Suggestion
  keywords : Option (List String)
  atsCompatibility : Option Int
deriving Repr, DecidableEq

/-- The range constraint `z.number().min(0).max(100)` that
`analysisResultSchema` declares for `score`. -/
abbrev scoreWithinSchemaBounds (a : AnalysisResult) : Prop :=
  0 ≤ a.score ∧ a.score ≤ 100

/-- The range constraint `analysisResultSchema` declares for the optional
`atsCompatibility`. -/
abbrev atsWithinSchemaBounds (a : AnalysisResult) : Prop :=
  ∀ v, a.atsCompatibility = some v → 0 ≤ v ∧ v ≤ 100

/-! ### `JSON.stringify` of a `ParsedResume`

`enhanceJobMatchAnalysis` serializes the whole parsed resume with
`JSON.stringify(parsedResume)`.  Absent (`undefined`) properties are omitted;
present properties are rendered in declaration order with no spacing. -/

def stringifyPersonalDetails (pd : PersonalDetails) : String :=
  objStr [memberStr "name" pd.name, memberStr "email" pd.email, memberStr "phone" pd.phone,
    memberStr "location" pd.location, memberStr "summary" pd.summary]

def stringifyExperience (e : Experience) : String :=
  objStr [memberStr "title" (some e.title), memberStr "company" (some e.company),
    memberStr "duration" (some e.duration), memberStr "description" (some e.description),
    memberRaw "achievements" (e.achievements.map (fun l => arrStr (l.map jstr)))]

def stringifyEducation (e : Education) : String :=
  objStr [memberStr "degree" (some e.degree), memberStr "institution" (some e.institution),
    memberStr "year" (some e.year), memberStr "gpa" e.gpa]

def stringifySkills (s : Skills) : String :=
  objStr [memberRaw "technical" (s.technical.map (fun l => arrStr (l.map jstr))),
    memberRaw "soft" (s.soft.map (fun l => arrStr (l.map jstr))),
    memberRaw "languages" (s.languages.map (fun l => arrStr (l.map jstr)))]

def stringifyProject (p : Project) : String :=
  objStr [memberStr "name" (some p.name), memberStr "description" (some p.description),
    memberRaw "technologies" (p.technologies.map (fun l => arrStr (l.map jstr)))]

def stringifyResume (p : ParsedResume) : String :=
  objStr [memberRaw "personalDetails" (p.personalDetails.map stringifyPersonalDetails),
    memberRaw "experience" (p.experience.map (fun l => arrStr (l.map stringifyExperience))),
    memberRaw "education" (p.education.map (fun l => arrStr (l.map stringifyEducation))),
    memberRaw "skills" (p.skills.map stringifySkills),
    memberRaw "projects" (p.projects.map (fun l => arrStr (l.map stringifyProject)))]

/-! ### The quantifiable-achievement regular expression

`analyzer.ts` tests descriptions against
`/\d+%|\d+\$|\d+,\d+|\d+ years?|\d+ months?/i`.  Every alternative is one or
more digits followed by a short suffix; `test` succeeds when a match starts
at any position.  Case-insensitivity is modelled by lowering the subject
first (the pattern letters are already lower case). -/

/-- Does one of the five suffix alternatives start here (right after the
digits)?  The optional `s?` never constrains matchability. -/
def afterDigitsAlt : List Char → Bool
  | [] => false
  | c :: rest =>
    c == '%' || c == '$' ||
    (c == ',' && (match rest with | d :: _ => d.isDigit | [] => false)) ||
    (c == ' ' && ("year".data.isPrefixOf rest || "month".data.isPrefixOf rest))

/-- After at least one digit was consumed: a suffix alternative starts here,
or one more digit is consumed. -/
def quantTail : List Char → Bool
  | [] => false
  | c :: rest => afterDigitsAlt (c :: rest) || (c.isDigit && quantTail rest)

/-- A match of the pattern starts at this position. -/
def quantAt : List Char → Bool
  | [] => false
  | c :: rest => c.isDigit && quantTail rest

/-- A match of the pattern starts at some position. -/
def quantAnywhere : List Char → Bool
  | [] => false
  | c :: rest => quantAt (c :: rest) || quantAnywhere rest

/-- Model of `/\d+%|\d+\$|\d+,\d+|\d+ years?|\d+ months?/i.test s`. -/
def matchesQuantPattern (s : String) : Bool :=
  quantAnywhere (lowerStr s).data

namespace ResumeAnalyzer

/-! ### `ResumeAnalyzer` (`server/services/analyzer.ts`)

`analyzeResume`/`analyzeJobMatch` first await the LLM service and then run a
deterministic enhancement.  The backend call is modelled by passing the raw
`AnalysisResult` the service returned as an explicit argument. -/

/-- JavaScript falsiness of a possibly-absent string (`!x` is true for both
`undefined` and `""`). -/
def strFalsy : Option String → Bool
  | none => true
  | some s => s == ""

def missingEmailSuggestion : Suggestion :=
  { type := .warning, title := "Missing Email",
    description := "Add a professional email address to your contact information",
    sectionTag := some "personalDetails" }

def missingPhoneSuggestion : Suggestion :=
  { type := .warning, title := "Missing Phone Number",
    description := "Include a phone number for recruiters to contact you",
    sectionTag := some "personalDetails" }

def expandExperienceSuggestion : Suggestion :=
  { type := .info, title := "Expand Experience Descriptions",
    description := "Add more detailed descriptions of your accomplishments and responsibilities",
    sectionTag := some "experience" }

def quantifiableSuggestion : Suggestion :=
  { type := .warning, title := "Add Quantifiable Achievements",
    description := "Include specific numbers, percentages, or metrics to demonstrate your impact",
    sectionTag := some "experience" }

/-- The four rule-based suggestions `enhanceAnalysis` pushes, in push order.
`parsedResume.experience?.some(...)` is `undefined` (falsy) when the
experience list is absent, which `Option.getD []` reproduces. -/
def ruleSuggestions (parsedResume : ParsedResume) : List Suggestion :=
  (if strFalsy (parsedResume.personalDetails.bind PersonalDetails.email) then
    [missingEmailSuggestion] else [])
  ++ (if strFalsy (parsedResume.personalDetails.bind PersonalDetails.phone) then
    [missingPhoneSuggestion] else [])
  ++ (if (parsedResume.experience.getD []).any
        (fun exp => exp.description == "" || decide (exp.description.length < 50)) then
    [expandExperienceSuggestion] else [])
  ++ (if !((parsedResume.experience.getD []).any
        (fun exp => matchesQuantPattern exp.description)) then
    [quantifiableSuggestion] else [])

/-- `calculateScore`: 100, minus 5 per warning-type suggestion, minus 10/20/
10/15 for the falsy name / empty-or-absent experience / education /
technical-skill checks, clamped by `Math.max(0, Math.min(100, score))`. -/
def calculateScore (parsedResume : ParsedResume) (suggestions : List Suggestion) : Int :=
  let score : Int := 100
  let score := score - 5 * ((suggestions.filter (fun s => s.type == SuggestionType.warning)).length : Int)
  let score := if strFalsy (parsedResume.personalDetails.bind PersonalDetails.name) then score - 10 else score
  let score := if (parsedResume.experience.getD []).isEmpty then score - 20 else score
  let score := if (parsedResume.education.getD []).isEmpty then score - 10 else score
  let score := if ((parsedResume.skills.bind Skills.technical).getD []).isEmpty then score - 15 else score
  max 0 (min 100 score)

/-- `enhanceAnalysis`: append the rule suggestions to the AI ones and
recompute the score from the final list; `keywords` and `atsCompatibility`
are spread through unchanged. -/
def enhanceAnalysis (analysis : AnalysisResult) (parsedResume : ParsedResume) : AnalysisResult :=
  let suggestions := analysis.suggestions ++ ruleSuggestions parsedResume
  { analysis with suggestions := suggestions, score := calculateScore parsedResume suggestions }

/-- The fixed keyword vocabulary of `extractKeywords`. -/
def commonSkills : List String :=
  ["JavaScript", "TypeScript", "React", "Node.js", "Python", "Java", "AWS", "Docker",
   "Kubernetes", "SQL", "MongoDB", "PostgreSQL", "Git", "Agile", "Scrum",
   "Machine Learning", "Data Analysis", "Project Management", "Leadership",
   "Communication", "Problem Solving", "Team Collaboration"]

/-- `extractKeywords`: the vocabulary entries occurring case-insensitively
in the text, in vocabulary order. -/
def extractKeywords (text : String) : List String :=
  commonSkills.filter (fun skill => includesStr (lowerStr text) (lowerStr skill))

/-- The `missingKeywords` computed by `enhanceJobMatchAnalysis`: job-text
keywords whose lowering does not occur in the lowered resume serialization. -/
def missingKeywords (parsedResume : ParsedResume) (jobDescription : String) : List String :=
  (extractKeywords jobDescription).filter
    (fun keyword => !(includesStr (lowerStr (stringifyResume parsedResume)) (lowerStr keyword)))

/-- The warning pushed when `missingKeywords` is non-empty. -/
def missingSkillsSuggestion (missing : List String) : Suggestion :=
  { type := .warning, title := "Missing Key Skills",
    description := "Consider adding these relevant skills: " ++ String.intercalate ", " (missing.take 5),
    sectionTag := some "skills" }

/-- `enhanceJobMatchAnalysis`: append at most one warning, union keywords;
`score` and `atsCompatibility` are spread through unchanged. -/
def enhanceJobMatchAnalysis (analysis : AnalysisResult) (parsedResume : ParsedResume)
    (jobDescription : String) : AnalysisResult :=
  let missing := missingKeywords parsedResume jobDescription
  let suggestions := analysis.suggestions ++
    (if missing.length > 0 then [missingSkillsSuggestion missing] else [])
  { analysis with
    suggestions := suggestions,
    keywords := some (analysis.keywords.getD [] ++ missing) }

/-- `ResumeAnalyzer.analyzeResume`, with the awaited LLM response passed as
the `rawAnalysis` argument. -/
def analyzeResume (rawAnalysis : AnalysisResult) (parsedResume : ParsedResume) : AnalysisResult :=
  enhanceAnalysis rawAnalysis parsedResume

/-- `ResumeAnalyzer.analyzeJobMatch`, with the awaited LLM response passed as
the `rawAnalysis` argument. -/
def analyzeJobMatch (rawAnalysis : AnalysisResult) (parsedResume : ParsedResume)
    (jobDescription : String) : AnalysisResult :=
  enhanceJobMatchAnalysis rawAnalysis parsedResume jobDescription

end ResumeAnalyzer

/-! ### Provider services (`server/services/llm.ts`)

The system-prompt template literals are transcribed exactly, including the
indentation each class's source embeds in them; literal braces are written
with their character codes. -/

def DEFAULT_OPENAI_MODEL : String := "gpt-4o"

def DEFAULT_CLAUDE_MODEL : String := "claude-sonnet-4-20250514"

def DEFAULT_GEMINI_MODEL : String := "gemini-2.5-flash"

def openaiParsePrompt : String :=
  "You are a resume parsing expert. Extract structured data from the resume text and return it in JSON format with these fields:\n          - personalDetails: \x7bname, email, phone, location, summary\x7d\n          - experience: [\x7btitle, company, duration, description, achievements\x7d]\n          - education: [\x7bdegree, institution, year, gpa\x7d]\n          - skills: \x7btechnical, soft, languages\x7d\n          - projects: [\x7bname, description, technologies\x7d]\n          \n          Return only valid JSON without any additional text."

def claudeParsePrompt : String :=
  "You are a resume parsing expert. Extract structured data from the resume text and return it in JSON format with these fields:\n      - personalDetails: \x7bname, email, phone, location, summary\x7d\n      - experience: [\x7btitle, company, duration, description, achievements\x7d]\n      - education: [\x7bdegree, institution, year, gpa\x7d]\n      - skills: \x7btechnical, soft, languages\x7d\n      - projects: [\x7bname, description, technologies\x7d]\n      \n      Return only valid JSON without any additional text."

def geminiParsePrompt : String :=
  "You are a resume parsing expert. Extract structured data from the resume text and return it in JSON format with these fields:\n        - personalDetails: \x7bname, email, phone, location, summary\x7d\n        - experience: [\x7btitle, company, duration, description, achievements\x7d]\n        - education: [\x7bdegree, institution, year, gpa\x7d]\n        - skills: \x7btechnical, soft, languages\x7d\n        - projects: [\x7bname, description, technologies\x7d]"

def ollamaParsePrompt : String :=
  "You are a resume parsing expert. Extract structured data from the resume text and return it in JSON format with these fields:\n    - personalDetails: \x7bname, email, phone, location, summary\x7d\n    - experience: [\x7btitle, company, duration, description, achievements\x7d]\n    - education: [\x7bdegree, institution, year, gpa\x7d]\n    - skills: \x7btechnical, soft, languages\x7d\n    - projects: [\x7bname, description, technologies\x7d]\n    \n    Return only valid JSON without any additional text."

def openaiAnalyzePrompt : String :=
  "You are a resume analysis expert. Analyze the resume and provide:\n          - score: Overall score 0-100\n          - suggestions: Array of \x7btype: \"warning\"|\"info\"|\"success\", title, description, section\x7d\n          - keywords: Important keywords found\n          - atsCompatibility: ATS compatibility score 0-100\n          \n          Focus on industry standards, formatting, content quality, and ATS compatibility.\n          Return only valid JSON."

def claudeAnalyzePrompt : String :=
  "You are a resume analysis expert. Analyze the resume and provide JSON with:\n      - score: Overall score 0-100\n      - suggestions: Array of \x7btype: \"warning\"|\"info\"|\"success\", title, description, section\x7d\n      - keywords: Important keywords found\n      - atsCompatibility: ATS compatibility score 0-100\n      \n      Focus on industry standards, formatting, content quality, and ATS compatibility."

def geminiAnalyzePrompt : String :=
  "You are a resume analysis expert. Analyze the resume and provide:\n        - score: Overall score 0-100\n        - suggestions: Array of \x7btype: \"warning\"|\"info\"|\"success\", title, description, section\x7d\n        - keywords: Important keywords found\n        - atsCompatibility: ATS compatibility score 0-100\n        \n        Focus on industry standards, formatting, content quality, and ATS compatibility."

def ollamaAnalyzePrompt : String :=
  "You are a resume analysis expert. Analyze the resume and provide JSON with:\n    - score: Overall score 0-100\n    - suggestions: Array of \x7btype: \"warning\"|\"info\"|\"success\", title, description, section\x7d\n    - keywords: Important keywords found\n    - atsCompatibility: ATS compatibility score 0-100\n    \n    Focus on industry standards, formatting, content quality, and ATS compatibility."

def openaiJobMatchPrompt : String :=
  "You are a job matching expert. Compare the resume against the job description and provide:\n          - score: Match score 0-100\n          - suggestions: Specific improvements to match the job better\n          - keywords: Missing keywords from the job description\n          - atsCompatibility: How well the resume would perform in ATS for this job\n          \n          Return only valid JSON."

def claudeJobMatchPrompt : String :=
  "You are a job matching expert. Compare the resume against the job description and provide JSON with:\n      - score: Match score 0-100\n      - suggestions: Specific improvements to match the job better\n      - keywords: Missing keywords from the job description\n      - atsCompatibility: How well the resume would perform in ATS for this job"

def geminiJobMatchPrompt : String :=
  "You are a job matching expert. Compare the resume against the job description and provide:\n        - score: Match score 0-100\n        - suggestions: Specific improvements to match the job better\n        - keywords: Missing keywords from the job description\n        - atsCompatibility: How well the resume would perform in ATS for this job"

def ollamaJobMatchPrompt : String :=
  "You are a job matching expert. Compare the resume against the job description and provide JSON with:\n    - score: Match score 0-100\n    - suggestions: Specific improvements to match the job better\n    - keywords: Missing keywords from the job description\n    - atsCompatibility: How well the resume would perform in ATS for this job"

/-- A row of the `llm_configs` table (`shared/schema.ts`), with the free-form
`config` JSON object modelled as a string-to-string association list. -/
structure LLMConfig where
  id : Nat
  userId : Option Nat
  provider : String
  config : List (String × String)
  isActive : Option Bool
deriving Repr, DecidableEq

/-- `config.key` property access on the free-form config record. -/
def getConfig (config : List (String × String)) (k : String) : Option String :=
  config.lookup k

structure OpenAIService where
  config : List (String × String)
deriving Repr, DecidableEq

structure ClaudeService where
  config : List (String × String)
deriving Repr, DecidableEq

structure GeminiService where
  config : List (String × String)
deriving Repr, DecidableEq

/-- `OllamaService`'s constructor resolves `config.url || "http://localhost:11434"`
and `config.model || "llama2"` eagerly into fields. -/
structure OllamaService where
  baseUrl : String
  model : String
deriving Repr, DecidableEq

def OllamaService.ofConfig (config : List (String × String)) : OllamaService :=
  { baseUrl := jsOr (getConfig config "url") "http://localhost:11434",
    model := jsOr (getConfig config "model") "llama2" }

/-! The observable part of each outbound backend request.  The user-turn
content carries the operation input (resume text, serialized resume, job
description) and is not needed by any claim, so the records keep the fields
the claims reason about: the model named in the request, the system
instruction, and provider-specific framing flags. -/

structure OpenAIChatRequest where
  model : String
  systemContent : String
  responseFormatJsonObject : Bool
deriving Repr, DecidableEq

structure ClaudeRequest where
  model : String
  maxTokens : Nat
  systemContent : String
deriving Repr, DecidableEq

structure GeminiRequest where
  model : String
  systemInstruction : String
  responseMimeType : String
deriving Repr, DecidableEq

/-- Every `OpenAIService` method hard-codes `model: DEFAULT_OPENAI_MODEL`. -/
def OpenAIService.parseResumeRequest (_svc : OpenAIService) : OpenAIChatRequest :=
  { model := DEFAULT_OPENAI_MODEL, systemContent := openaiParsePrompt, responseFormatJsonObject := true }

def OpenAIService.analyzeResumeRequest (_svc : OpenAIService) : OpenAIChatRequest :=
  { model := DEFAULT_OPENAI_MODEL, systemContent := openaiAnalyzePrompt, responseFormatJsonObject := true }

def OpenAIService.analyzeJobMatchRequest (_svc : OpenAIService) : OpenAIChatRequest :=
  { model := DEFAULT_OPENAI_MODEL, systemContent := openaiJobMatchPrompt, responseFormatJsonObject := true }

/-- Every `ClaudeService` method hard-codes `model: DEFAULT_CLAUDE_MODEL`
and `max_tokens: 2048`. -/
def ClaudeService.parseResumeRequest (_svc : ClaudeService) : ClaudeRequest :=
  { model := DEFAULT_CLAUDE_MODEL, maxTokens := 2048, systemContent := claudeParsePrompt }

def ClaudeService.analyzeResumeRequest (_svc : ClaudeService) : ClaudeRequest :=
  { model := DEFAULT_CLAUDE_MODEL, maxTokens := 2048, systemContent := claudeAnalyzePrompt }

def ClaudeService.analyzeJobMatchRequest (_svc : ClaudeService) : ClaudeRequest :=
  { model := DEFAULT_CLAUDE_MODEL, maxTokens := 2048, systemContent := claudeJobMatchPrompt }

/-- Every `GeminiService` method hard-codes `model: DEFAULT_GEMINI_MODEL`
and `responseMimeType: "application/json"`. -/
def GeminiService.parseResumeRequest (_svc : GeminiService) : GeminiRequest :=
  { model := DEFAULT_GEMINI_MODEL, systemInstruction := geminiParsePrompt, responseMimeType := "application/json" }

def GeminiService.analyzeResumeRequest (_svc : GeminiService) : GeminiRequest :=
  { model := DEFAULT_GEMINI_MODEL, systemInstruction := geminiAnalyzePrompt, responseMimeType := "application/json" }

def GeminiService.analyzeJobMatchRequest (_svc : GeminiService) : GeminiRequest :=
  { model := DEFAULT_GEMINI_MODEL, systemInstruction := geminiJobMatchPrompt, responseMimeType := "application/json" }

/-- The raw HTTP POST `OllamaService.makeRequest` issues. -/
structure OllamaHttpRequest where
  url : String
  method : String
  contentType : String
  body : Json
deriving Repr

def OllamaService.requestFor (svc : OllamaService) (prompt system : String) : OllamaHttpRequest :=
  { url := svc.baseUrl ++ "/api/generate", method := "POST", contentType := "application/json",
    body := Json.obj [("model", Json.str svc.model), ("prompt", Json.str prompt),
      ("system", Json.str system), ("stream", Json.bool false), ("format", Json.str "json")] }

def OllamaService.parseResumeRequest (svc : OllamaService) (text : String) : OllamaHttpRequest :=
  svc.requestFor ("Parse this resume:\n\n" ++ text) ollamaParsePrompt

/-! Response handling, per provider.  The TypeScript methods end in
`JSON.parse(...)` on the backend's textual payload; a thrown exception is
modelled as `Except.error`. -/

/-- `JSON.parse(response.choices[0].message.content || "\x7b\x7d")` — the
payload of every `OpenAIService` operation; the SDK types `content` as
string-or-null and `||` also replaces an empty string by `"\x7b\x7d"`. -/
def openaiHandleContent (content : Option String) : Except String Json :=
  parseJsonE (jsOr content "\x7b\x7d")

/-- `JSON.parse(response.text || "\x7b\x7d")` — every `GeminiService`
operation. -/
def geminiHandleText (text : Option String) : Except String Json :=
  parseJsonE (jsOr text "\x7b\x7d")

/-- `JSON.parse(response.content[0].text)` — every `ClaudeService`
operation; no fallback is substituted. -/
def claudeHandleText (text : String) : Except String Json :=
  parseJsonE text

/-- The backend's HTTP reply as `fetch` exposes it to `makeRequest`. -/
structure HttpResponse where
  ok : Bool
  statusText : String
  body : String
deriving Repr, DecidableEq

/-- `OllamaService.makeRequest` after the `fetch` resolved: non-ok status
throws; otherwise `response.json()` decodes the envelope and `data.response`
is returned.  An envelope that is not valid JSON, or whose `response` member
is absent or not a string, also surfaces as a thrown error. -/
def ollamaMakeRequestResult (resp : HttpResponse) : Except String String :=
  if resp.ok = false then Except.error ("Ollama request failed: " ++ resp.statusText)
  else
    match Json.parse resp.body with
    | none => Except.error "invalid JSON in response body"
    | some data =>
      match data.getField "response" with
      | some (Json.str s) => Except.ok s
      | _ => Except.error "response field missing or not a string"

/-- An `OllamaService` operation: `makeRequest` followed by the second
`JSON.parse` of the extracted `response` string. -/
def OllamaService.handleResponse (resp : HttpResponse) : Except String Json :=
  match ollamaMakeRequestResult resp with
  | Except.error e => Except.error e
  | Except.ok s => parseJsonE s

/-- The runtime value `createLLMService` returns: one of the four service
classes. -/
inductive LLMServiceInst where
  | openaiService (svc : OpenAIService)
  | claudeService (svc : ClaudeService)
  | geminiService (svc : GeminiService)
  | ollamaService (svc : OllamaService)
deriving Repr, DecidableEq

/-- The provider name a service instance's runtime type corresponds to. -/
def providerOf : LLMServiceInst → String
  | .openaiService _ => "openai"
  | .claudeService _ => "claude"
  | .geminiService _ => "gemini"
  | .ollamaService _ => "ollama"

/-- `createLLMService`: dispatch on `config.provider`, throwing on any other
value. -/
def createLLMService (c : LLMConfig) : Except String LLMServiceInst :=
  if c.provider = "openai" then Except.ok (.openaiService ⟨c.config⟩)
  else if c.provider = "claude" then Except.ok (.claudeService ⟨c.config⟩)
  else if c.provider = "gemini" then Except.ok (.geminiService ⟨c.config⟩)
  else if c.provider = "ollama" then Except.ok (.ollamaService (OllamaService.ofConfig c.config))
  else Except.error ("Unsupported LLM provider: " ++ c.provider)

/-! ### Concrete fixtures used by the claim theorems -/

/-- A raw AI result whose numeric fields violate the schema bounds, as an
unvalidated backend can produce. -/
def rawOutOfRange : AnalysisResult :=
  { score := 150, suggestions := [], keywords := none, atsCompatibility := some 200 }

/-- A parsed resume with every sub-record absent. -/
def emptyResume : ParsedResume :=
  { personalDetails := none, experience := none, education := none, skills := none,
    projects := none }

/-- A config record that explicitly names a model. -/
def cfgCustomModel : List (String × String) :=
  [("apiKey", "sk-test"), ("model", "custom-model")]

/-- A raw AI result with no suggestions and a score the enhancement
overrides. -/
def aCex : AnalysisResult :=
  { score := 87, suggestions := [], keywords := none, atsCompatibility := none }

def pdCex : PersonalDetails :=
  { name := some "", email := some "jane@example.com", phone := some "5551234",
    location := none, summary := none }

def expCex : Experience :=
  { title := "Engineer", company := "Acme", duration := "2019-2024",
    description := "Led the team and increased revenue by 25% across two consecutive years",
    achievements := none }

/-- A resume whose `personalDetails.name` is present but the empty string,
with everything else present and warning-free. -/
def pCex : ParsedResume :=
  { personalDetails := some pdCex,
    experience := some [expCex],
    education := some [{ degree := "BS", institution := "State University", year := "2019", gpa := none }],
    skills := some { technical := some ["Python"], soft := none, languages := none },
    projects := none }

def expRevenue : Experience :=
  { title := "Dev", company := "X", duration := "2020", description := "increased revenue by 25%",
    achievements := none }

def expWorked : Experience :=
  { title := "Dev", company := "X", duration := "2020", description := "Worked on backend systems",
    achievements := none }

/-- A resume whose only experience description contains a quantifiable
achievement. -/
def pRevenue : ParsedResume :=
  { personalDetails := none, experience := some [expRevenue], education := none, skills := none,
    projects := none }

/-- A resume whose only experience description contains no numbers. -/
def pWorked : ParsedResume :=
  { personalDetails := none, experience := some [expWorked], education := none, skills := none,
    projects := none }

/-- A raw AI result carrying no suggestions. -/
def zeroAnalysis : AnalysisResult :=
  { score := 0, suggestions := [], keywords := none, atsCompatibility := none }

/-- A raw AI job-match result with AI-supplied keywords. -/
def aJobMatch : AnalysisResult :=
  { score := 70, suggestions := [], keywords := some ["communication"], atsCompatibility := some 88 }

/-- A resume whose serialization contains `Python` but neither `Docker` nor
`Leadership`. -/
def pPythonOnly : ParsedResume :=
  { personalDetails := none, experience := none, education := none,
    skills := some { technical := some ["Python"], soft := none, languages := none },
    projects := none }

/-- The score formula exactly as the specification sentence states it: the
10-point name deduction applies only when `personalDetails.name` is absent
(the specification explicitly distinguishes absence from the empty string),
while the list deductions apply when absent or empty.  Stated for comparison
against `calculateScore`, which instead tests JavaScript falsiness of the
name. -/
def specClaimedScore (p : ParsedResume) (finalSuggestions : List Suggestion) : Int :=
  max 0 (min 100 (100
    - 5 * (((finalSuggestions.filter (fun s => s.type == SuggestionType.warning)).length : Int))
    - (if (p.personalDetails.bind PersonalDetails.name).isNone then 10 else 0)
    - (if (p.experience.getD []).isEmpty then 20 else 0)
    - (if (p.education.getD []).isEmpty then 10 else 0)
    - (if ((p.skills.bind Skills.technical).getD []).isEmpty then 15 else 0)))

/-- The HTTP reply fixture whose body is a JSON envelope wrapping the JSON
text `[1, 2]` inside its `response` string. -/
def respEnvelope : HttpResponse :=
  { ok := true, statusText := "OK", body := "\x7b\"response\": \"[1, 2]\"\x7d" }

/-- The HTTP reply fixture whose envelope wraps the unparsable text
`not json` inside its `response` string. -/
def respNotJson : HttpResponse :=
  { ok := true, statusText := "OK", body := "\x7b\"response\": \"not json\"\x7d" }

/-- A resume whose serialization contains the lower-case text `javascript`. -/
def pJsResume : ParsedResume :=
  { personalDetails := none, experience := none, education := none,
    skills := some { technical := some ["javascript"], soft := none, languages := none },
    projects := none }

/-! ### Helper lemmas about the string primitives -/

theorem infixOfB_iff_occurs (n h : List Char) : infixOfB n h = true ↔ n <:+: h := by
  induction h with
  | nil => simp [infixOfB, List.isPrefixOf_iff_prefix]
  | cons c t ih => simp [infixOfB, List.isPrefixOf_iff_prefix, List.infix_cons_iff, ih]

theorem includesStr_iff_occurs (h n : String) : includesStr h n = true ↔ n.data <:+: h.data := by
  simp [includesStr, infixOfB_iff_occurs]

/-- `includes` survives character-wise lowering of both sides. -/
theorem includesStr_lower (h n : String) (hin : includesStr h n = true) :
    includesStr (lowerStr h) (lowerStr n) = true := by
  rw [includesStr_iff_occurs] at hin ⊢
  exact List.IsInfix.map Char.toLower hin

/-- A prefix of an occurring needle also occurs. -/
theorem includesStr_of_prefix (h n₁ n₂ : String) (hp : n₁.data <+: n₂.data)
    (hin : includesStr h n₂ = true) : includesStr h n₁ = true := by
  rw [includesStr_iff_occurs] at hin ⊢
  exact (hp.isInfix).trans hin

/-- Membership in a conditional singleton. -/
theorem mem_ite_singleton {α : Type} (a b : α) (c : Prop) [Decidable c] :
    a ∈ (if c then [b] else []) ↔ c ∧ a = b := by
  split <;> simp_all

/-! ### C4 — factory dispatch -/

/-- C4: for every `LLMConfig`, `createLLMService` returns a service instance
whose runtime class matches the provider when the provider is one of
`openai`, `claude`, `gemini`, `ollama`, and throws the unsupported-provider
error for every other provider value. -/
theorem createLLMService_matches_provider (c : LLMConfig) :
    match createLLMService c with
    | Except.ok s => providerOf s = c.provider
    | Except.error e =>
        c.provider ∉ (["openai", "claude", "gemini", "ollama"] : List String) ∧
        e = "Unsupported LLM provider: " ++ c.provider := by
  unfold createLLMService
  split_ifs with h1 h2 h3 h4 <;> simp_all [providerOf]

/-! ### C2 — score/atsCompatibility clamping -/

/-- C2: the claimed invariant that `score` and `atsCompatibility` returned
by the analyzer always lie in [0,100] fails on the code: `analyzeJobMatch`
passes the raw AI `score` through unclamped and both paths pass
`atsCompatibility` through unclamped, contradicting the bounds the shared
`analysisResultSchema` declares; only the base path's recomputed `score` is
clamped. -/
theorem analyzer_returns_out_of_range_scores :
    (ResumeAnalyzer.analyzeJobMatch rawOutOfRange emptyResume "").score = 150 ∧
    ¬ scoreWithinSchemaBounds (ResumeAnalyzer.analyzeJobMatch rawOutOfRange emptyResume "") ∧
    (ResumeAnalyzer.analyzeJobMatch rawOutOfRange emptyResume "").atsCompatibility = some 200 ∧
    (ResumeAnalyzer.analyzeResume rawOutOfRange emptyResume).atsCompatibility = some 200 ∧
    ¬ atsWithinSchemaBounds (ResumeAnalyzer.analyzeResume rawOutOfRange emptyResume) ∧
    scoreWithinSchemaBounds (ResumeAnalyzer.analyzeResume rawOutOfRange emptyResume) := by
  refine ⟨by decide, by decide, by decide, by decide, ?_, by decide⟩
  intro hall
  exact absurd (hall 200 (by decide)).2 (by decide)

/-! ### C8 — prompt texts across providers -/

/-- C8 counterexample: the parseResume instruction texts of the OpenAI and
Claude services are not character-for-character identical (their template
literals embed different indentation). -/
theorem parse_prompts_not_identical : openaiParsePrompt ≠ claudeParsePrompt := by decide

set_option maxRecDepth 40000 in
/-- C8 amended: for each of the three operations the system prompts are NOT
character-for-character identical across providers; for parseResume the
OpenAI, Claude and Ollama prompts agree line-by-line once leading
indentation is stripped, while the Gemini prompt also omits the closing
`Return only valid JSON without any additional text.` sentence. -/
theorem prompts_agree_only_modulo_framing :
    openaiParsePrompt ≠ claudeParsePrompt ∧
    openaiAnalyzePrompt ≠ claudeAnalyzePrompt ∧
    openaiJobMatchPrompt ≠ claudeJobMatchPrompt ∧
    promptLines openaiParsePrompt = promptLines claudeParsePrompt ∧
    promptLines claudeParsePrompt = promptLines ollamaParsePrompt ∧
    promptLines openaiParsePrompt ≠ promptLines geminiParsePrompt := by
  refine ⟨by decide, by decide, by decide, by decide, by decide, by decide⟩

/-! ### C7 — model selection -/

/-- C7 counterexample: a config that names `custom-model` still yields
outbound requests naming the provider defaults for the three hosted
services — config model settings are ignored there. -/
theorem hosted_requests_ignore_configured_model :
    getConfig cfgCustomModel "model" = some "custom-model" ∧
    (OpenAIService.parseResumeRequest ⟨cfgCustomModel⟩).model ≠ "custom-model" ∧
    (ClaudeService.analyzeResumeRequest ⟨cfgCustomModel⟩).model ≠ "custom-model" ∧
    (GeminiService.analyzeJobMatchRequest ⟨cfgCustomModel⟩).model ≠ "custom-model" := by
  decide

/-- C7 amended: if the config specifies a model, only the Ollama service
names it in the outbound request — the OpenAI, Claude and Gemini requests
always name the fixed default model constants regardless of config; if the
config omits a model, the Ollama requests name its fixed default `llama2`
(and, `config.model || "llama2"` being a falsy-or, a model set to the empty
string behaves like an omitted one). -/
theorem request_model_selection :
    (∀ svc : OpenAIService,
      (OpenAIService.parseResumeRequest svc).model = DEFAULT_OPENAI_MODEL ∧
      (OpenAIService.analyzeResumeRequest svc).model = DEFAULT_OPENAI_MODEL ∧
      (OpenAIService.analyzeJobMatchRequest svc).model = DEFAULT_OPENAI_MODEL) ∧
    (∀ svc : ClaudeService,
      (ClaudeService.parseResumeRequest svc).model = DEFAULT_CLAUDE_MODEL ∧
      (ClaudeService.analyzeResumeRequest svc).model = DEFAULT_CLAUDE_MODEL ∧
      (ClaudeService.analyzeJobMatchRequest svc).model = DEFAULT_CLAUDE_MODEL) ∧
    (∀ svc : GeminiService,
      (GeminiService.parseResumeRequest svc).model = DEFAULT_GEMINI_MODEL ∧
      (GeminiService.analyzeResumeRequest svc).model = DEFAULT_GEMINI_MODEL ∧
      (GeminiService.analyzeJobMatchRequest svc).model = DEFAULT_GEMINI_MODEL) ∧
    (∀ config m, getConfig config "model" = some m → m ≠ "" →
      (OllamaService.ofConfig config).model = m ∧
      ∀ prompt system, ((OllamaService.ofConfig config).requestFor prompt system).body.getField "model"
        = some (Json.str m)) ∧
    (∀ config, getConfig config "model" = none →
      (OllamaService.ofConfig config).model = "llama2" ∧
      ∀ prompt system, ((OllamaService.ofConfig config).requestFor prompt system).body.getField "model"
        = some (Json.str "llama2")) ∧
    (∀ config, getConfig config "model" = some "" →
      (OllamaService.ofConfig config).model = "llama2" ∧
      ∀ prompt system, ((OllamaService.ofConfig config).requestFor prompt system).body.getField "model"
        = some (Json.str "llama2")) := by
  refine ⟨fun svc => ⟨rfl, rfl, rfl⟩, fun svc => ⟨rfl, rfl, rfl⟩, fun svc => ⟨rfl, rfl, rfl⟩,
    ?_, ?_, ?_⟩
  · intro config m hm hne
    have hmodel : (OllamaService.ofConfig config).model = m := by
      simp [OllamaService.ofConfig, jsOr, hm, hne]
    exact ⟨hmodel, fun prompt system => by simp [OllamaService.requestFor, hmodel, Json.getField]⟩
  · intro config hm
    have hmodel : (OllamaService.ofConfig config).model = "llama2" := by
      simp [OllamaService.ofConfig, jsOr, hm]
    exact ⟨hmodel, fun prompt system => by simp [OllamaService.requestFor, hmodel, Json.getField]⟩
  · intro config hm
    have hmodel : (OllamaService.ofConfig config).model = "llama2" := by
      simp [OllamaService.ofConfig, jsOr, hm]
    exact ⟨hmodel, fun prompt system => by simp [OllamaService.requestFor, hmodel, Json.getField]⟩

/-- C7 witness: the amended theorem applied at a config that sets
`model = llama3` and at one that omits the model. -/
theorem request_model_selection_witness :
    (getConfig [("model", "llama3")] "model" = some "llama3" ∧
      (OllamaService.ofConfig [("model", "llama3")]).model = "llama3") ∧
    (getConfig [("url", "http://x")] "model" = none ∧
      (OllamaService.ofConfig [("url", "http://x")]).model = "llama2") :=
  ⟨⟨rfl, (request_model_selection.2.2.2.1 [("model", "llama3")] "llama3" rfl (by decide)).1⟩,
   ⟨rfl, (request_model_selection.2.2.2.2.1 [("url", "http://x")] rfl).1⟩⟩

/-- `calculateScore`'s sequential deductions equal one clamped linear
formula over the same conditions. -/
theorem calculateScore_eq_formula (p : ParsedResume) (sugs : List Suggestion) :
    ResumeAnalyzer.calculateScore p sugs =
      max 0 (min 100 (100
        - 5 * (((sugs.filter (fun s => s.type == SuggestionType.warning)).length : Int))
        - (if ResumeAnalyzer.strFalsy (p.personalDetails.bind PersonalDetails.name) then 10 else 0)
        - (if (p.experience.getD []).isEmpty then 20 else 0)
        - (if (p.education.getD []).isEmpty then 10 else 0)
        - (if ((p.skills.bind Skills.technical).getD []).isEmpty then 15 else 0))) := by
  simp only [ResumeAnalyzer.calculateScore]
  cases h1 : ResumeAnalyzer.strFalsy (p.personalDetails.bind PersonalDetails.name) <;>
    cases h2 : (p.experience.getD []).isEmpty <;>
    cases h3 : (p.education.getD []).isEmpty <;>
    cases h4 : ((p.skills.bind Skills.technical).getD []).isEmpty <;>
    simp [h1, h2, h3, h4]

/-! ### C1 — deterministic score recomputation -/

/-- C1 counterexample: for a resume whose `personalDetails.name` is the
empty string (present but empty), the code deducts the 10 name points while
the specification's formula (deduct only when the name is absent) does not:
the returned score is 90 but the claimed formula yields 100. -/
theorem analyzeResume_score_deviates_from_claimed_formula :
    (ResumeAnalyzer.analyzeResume aCex pCex).score = 90 ∧
    specClaimedScore pCex (ResumeAnalyzer.analyzeResume aCex pCex).suggestions = 100 ∧
    (ResumeAnalyzer.analyzeResume aCex pCex).score ≠
      specClaimedScore pCex (ResumeAnalyzer.analyzeResume aCex pCex).suggestions := by
  refine ⟨by decide, by decide, by decide⟩

/-- C1 amended: `analyzeResume` recomputes the score as 100 minus 5 per
warning-type suggestion in the final list (AI-supplied and rule-appended),
minus 10 if `personalDetails.name` is absent **or empty**, minus 20 if the
experience list is absent or empty, minus 10 if the education list is absent
or empty, minus 15 if `skills.technical` is absent or empty, clamped to
[0,100]; in particular, with no personal details, no experience, no
education and no technical skills the returned score is at most 45 whatever
the raw AI result contained. -/
theorem analyzeResume_score_recomputed :
    (∀ a p, (ResumeAnalyzer.analyzeResume a p).score =
      max 0 (min 100 (100
        - 5 * ((((ResumeAnalyzer.analyzeResume a p).suggestions.filter
            (fun s => s.type == SuggestionType.warning)).length : Int))
        - (if ResumeAnalyzer.strFalsy (p.personalDetails.bind PersonalDetails.name) then 10 else 0)
        - (if (p.experience.getD []).isEmpty then 20 else 0)
        - (if (p.education.getD []).isEmpty then 10 else 0)
        - (if ((p.skills.bind Skills.technical).getD []).isEmpty then 15 else 0)))) ∧
    (∀ a p, p.personalDetails = none → p.experience = none → p.education = none →
      p.skills = none → (ResumeAnalyzer.analyzeResume a p).score ≤ 45) := by
  constructor
  · intro a p
    exact calculateScore_eq_formula p (a.suggestions ++ ResumeAnalyzer.ruleSuggestions p)
  · intro a p hpd hexp hedu hsk
    have h := calculateScore_eq_formula p (a.suggestions ++ ResumeAnalyzer.ruleSuggestions p)
    show ResumeAnalyzer.calculateScore p (a.suggestions ++ ResumeAnalyzer.ruleSuggestions p) ≤ 45
    rw [h]
    have hc1 : ResumeAnalyzer.strFalsy (p.personalDetails.bind PersonalDetails.name) = true := by
      rw [hpd]; rfl
    have hc2 : (p.experience.getD []).isEmpty = true := by rw [hexp]; rfl
    have hc3 : (p.education.getD []).isEmpty = true := by rw [hedu]; rfl
    have hc4 : ((p.skills.bind Skills.technical).getD []).isEmpty = true := by rw [hsk]; rfl
    rw [hc1, hc2, hc3, hc4]
    simp only [if_true]
    apply max_le (by norm_num)
    refine le_trans (min_le_right _ _) ?_
    have hW : (0 : Int) ≤
        (((a.suggestions ++ ResumeAnalyzer.ruleSuggestions p).filter
          (fun s => s.type == SuggestionType.warning)).length : Int) := Int.natCast_nonneg _
    omega

/-- C1 witness: the amended theorem applied to the all-absent resume. -/
theorem analyzeResume_score_recomputed_witness :
    emptyResume.personalDetails = none ∧
    (ResumeAnalyzer.analyzeResume aCex emptyResume).score ≤ 45 :=
  ⟨rfl, analyzeResume_score_recomputed.2 aCex emptyResume rfl rfl rfl rfl⟩

/-! ### C6 — quantifiable-achievement warning -/

/-- C6: the `Add Quantifiable Achievements` warning is appended by the
enhancement exactly when no experience description matches the
quantifiable-achievement pattern; `increased revenue by 25%` suppresses it
and `Worked on backend systems` triggers it. -/
theorem quantifiable_warning_iff (a : AnalysisResult) (p : ParsedResume) :
    ((ResumeAnalyzer.enhanceAnalysis a p).suggestions =
      a.suggestions ++ ResumeAnalyzer.ruleSuggestions p) ∧
    (ResumeAnalyzer.quantifiableSuggestion ∈ ResumeAnalyzer.ruleSuggestions p ↔
      ∀ exp ∈ p.experience.getD [], matchesQuantPattern exp.description = false) ∧
    ResumeAnalyzer.quantifiableSuggestion ∉
      (ResumeAnalyzer.analyzeResume zeroAnalysis pRevenue).suggestions ∧
    ResumeAnalyzer.quantifiableSuggestion ∈
      (ResumeAnalyzer.analyzeResume zeroAnalysis pWorked).suggestions := by
  have hne1 : ResumeAnalyzer.quantifiableSuggestion ≠ ResumeAnalyzer.missingEmailSuggestion := by
    decide
  have hne2 : ResumeAnalyzer.quantifiableSuggestion ≠ ResumeAnalyzer.missingPhoneSuggestion := by
    decide
  have hne3 : ResumeAnalyzer.quantifiableSuggestion ≠ ResumeAnalyzer.expandExperienceSuggestion := by
    decide
  refine ⟨rfl, ?_, by decide, by decide⟩
  simp only [ResumeAnalyzer.ruleSuggestions, List.mem_append, mem_ite_singleton]
  simp [hne1, hne2, hne3, List.any_eq_true]

/-- C6 witness: the iff applied at the revenue fixture, whose only
description matches the pattern. -/
theorem quantifiable_warning_iff_witness :
    ResumeAnalyzer.quantifiableSuggestion ∉
      (ResumeAnalyzer.analyzeResume zeroAnalysis pRevenue).suggestions :=
  (quantifiable_warning_iff zeroAnalysis pRevenue).2.2.1

/-! ### C3 — malformed and empty backend responses -/

/-- C3 counterexample: an empty backend response does not fail for the
OpenAI and Gemini services — the `|| "\x7b\x7d"` fallback substitutes the
empty-object text and the operations return the empty object. -/
theorem empty_response_yields_empty_object_fallback :
    openaiHandleContent (some "") = Except.ok (Json.obj []) ∧
    geminiHandleText (some "") = Except.ok (Json.obj []) :=
  ⟨rfl, rfl⟩

/-- C3 amended: a non-empty response that is not valid JSON makes all four
providers' operations fail; an empty (or null) response fails for Claude and
Ollama but makes OpenAI and Gemini return the empty object via the
`|| "\x7b\x7d"` fallback instead of failing. -/
theorem malformed_or_empty_response_handling :
    (∀ s : String, s ≠ "" → Json.parse s = none →
      (∃ e, openaiHandleContent (some s) = Except.error e) ∧
      (∃ e, geminiHandleText (some s) = Except.error e) ∧
      (∃ e, claudeHandleText s = Except.error e) ∧
      (∀ resp : HttpResponse, resp.ok = true →
        Json.parse resp.body = some (Json.obj [("response", Json.str s)]) →
        ∃ e, OllamaService.handleResponse resp = Except.error e)) ∧
    openaiHandleContent (some "") = Except.ok (Json.obj []) ∧
    openaiHandleContent none = Except.ok (Json.obj []) ∧
    geminiHandleText (some "") = Except.ok (Json.obj []) ∧
    geminiHandleText none = Except.ok (Json.obj []) ∧
    (∃ e, claudeHandleText "" = Except.error e) ∧
    (∀ resp : HttpResponse, resp.ok = true →
      Json.parse resp.body = some (Json.obj [("response", Json.str "")]) →
      ∃ e, OllamaService.handleResponse resp = Except.error e) := by
  refine ⟨?_, rfl, rfl, rfl, rfl, ⟨"Unexpected token in JSON: ", rfl⟩, ?_⟩
  · intro s hne hparse
    refine ⟨⟨"Unexpected token in JSON: " ++ s, ?_⟩, ⟨"Unexpected token in JSON: " ++ s, ?_⟩,
      ⟨"Unexpected token in JSON: " ++ s, ?_⟩, ?_⟩
    · simp [openaiHandleContent, jsOr, hne, parseJsonE, hparse]
    · simp [geminiHandleText, jsOr, hne, parseJsonE, hparse]
    · simp [claudeHandleText, parseJsonE, hparse]
    · intro resp hok hbody
      refine ⟨"Unexpected token in JSON: " ++ s, ?_⟩
      simp [OllamaService.handleResponse, ollamaMakeRequestResult, hok, hbody, Json.getField,
        parseJsonE, hparse, List.lookup]
  · intro resp hok hbody
    refine ⟨"Unexpected token in JSON: ", ?_⟩
    simp [OllamaService.handleResponse, ollamaMakeRequestResult, hok, hbody, Json.getField,
      parseJsonE, List.lookup]
    rfl

/-- C3 witness: the amended theorem applied at the response text
`not json`. -/
theorem malformed_response_witness :
    ("not json" ≠ "" ∧ Json.parse "not json" = none) ∧
    (∃ e, openaiHandleContent (some "not json") = Except.error e) ∧
    (∃ e, claudeHandleText "not json" = Except.error e) ∧
    (∃ e, OllamaService.handleResponse respNotJson = Except.error e) := by
  have h := malformed_or_empty_response_handling.1 "not json" (by decide) rfl
  exact ⟨⟨by decide, rfl⟩, h.1, h.2.2.1, h.2.2.2 respNotJson rfl rfl⟩

/-! ### C9 — self-hosted transport and double decode -/

/-- C9: the Ollama request is a POST of `\x7bmodel, prompt, system,
stream: false, format: "json"\x7d` to `baseUrl ++ "/api/generate"` with
`baseUrl` defaulting to `http://localhost:11434`; a non-ok status fails with
the status text; and a successful reply is decoded twice — the envelope's
`response` string is itself parsed as JSON to produce the result. -/
theorem ollama_transport_and_double_decode :
    (∀ svc : OllamaService, ∀ prompt system,
      (svc.requestFor prompt system).url = svc.baseUrl ++ "/api/generate" ∧
      (svc.requestFor prompt system).method = "POST" ∧
      (svc.requestFor prompt system).contentType = "application/json" ∧
      (svc.requestFor prompt system).body = Json.obj [("model", Json.str svc.model),
        ("prompt", Json.str prompt), ("system", Json.str system),
        ("stream", Json.bool false), ("format", Json.str "json")]) ∧
    (∀ config, getConfig config "url" = none →
      (OllamaService.ofConfig config).baseUrl = "http://localhost:11434") ∧
    (∀ resp : HttpResponse, resp.ok = false →
      ollamaMakeRequestResult resp = Except.error ("Ollama request failed: " ++ resp.statusText)) ∧
    (∀ resp s, resp.ok = true →
      Json.parse resp.body = some (Json.obj [("response", Json.str s)]) →
      OllamaService.handleResponse resp = parseJsonE s) ∧
    OllamaService.handleResponse respEnvelope = Except.ok (Json.arr [Json.num 1, Json.num 2]) := by
  refine ⟨fun svc prompt system => ⟨rfl, rfl, rfl, rfl⟩, ?_, ?_, ?_, rfl⟩
  · intro config h
    simp [OllamaService.ofConfig, jsOr, h]
  · intro resp h
    simp [ollamaMakeRequestResult, h]
  · intro resp s hok hbody
    simp [OllamaService.handleResponse, ollamaMakeRequestResult, hok, hbody, Json.getField,
      List.lookup]

/-- C9 witness: the double decode applied at the concrete envelope whose
`response` string holds the JSON text `[1, 2]`. -/
theorem ollama_double_decode_witness :
    OllamaService.handleResponse respEnvelope = parseJsonE "[1, 2]" :=
  ollama_transport_and_double_decode.2.2.2.1 respEnvelope "[1, 2]" rfl rfl

/-! ### C5 — job-match keyword diffing -/

/-- C5: the job-match enhancement passes `score` and `atsCompatibility`
through unchanged, concatenates the AI keywords with the full missing-keyword
list, computes `missingKeywords` as the vocabulary entries occurring
case-insensitively in the job text but not in the resume serialization (in
vocabulary order), and appends exactly one `Missing Key Skills` warning
naming up to the first five of them when the list is non-empty; on the
`Python, Docker, Leadership` example the missing list is
`["Docker", "Leadership"]`. -/
theorem jobmatch_enhancement :
    (∀ a p jd, (ResumeAnalyzer.analyzeJobMatch a p jd).score = a.score ∧
      (ResumeAnalyzer.analyzeJobMatch a p jd).atsCompatibility = a.atsCompatibility ∧
      (ResumeAnalyzer.analyzeJobMatch a p jd).keywords =
        some (a.keywords.getD [] ++ ResumeAnalyzer.missingKeywords p jd)) ∧
    (∀ p jd, ResumeAnalyzer.missingKeywords p jd =
      ResumeAnalyzer.commonSkills.filter (fun k => includesStr (lowerStr jd) (lowerStr k) &&
        !(includesStr (lowerStr (stringifyResume p)) (lowerStr k)))) ∧
    (∀ a p jd, ResumeAnalyzer.missingKeywords p jd ≠ [] →
      (ResumeAnalyzer.analyzeJobMatch a p jd).suggestions = a.suggestions ++
        [ResumeAnalyzer.missingSkillsSuggestion (ResumeAnalyzer.missingKeywords p jd)]) ∧
    (∀ a p jd, ResumeAnalyzer.missingKeywords p jd = [] →
      (ResumeAnalyzer.analyzeJobMatch a p jd).suggestions = a.suggestions) ∧
    ResumeAnalyzer.missingKeywords pPythonOnly "Python, Docker, Leadership" =
      ["Docker", "Leadership"] ∧
    (ResumeAnalyzer.analyzeJobMatch aJobMatch pPythonOnly "Python, Docker, Leadership").suggestions =
      [ResumeAnalyzer.missingSkillsSuggestion ["Docker", "Leadership"]] ∧
    (ResumeAnalyzer.analyzeJobMatch aJobMatch pPythonOnly "Python, Docker, Leadership").keywords =
      some ["communication", "Docker", "Leadership"] := by
  refine ⟨fun a p jd => ⟨rfl, rfl, rfl⟩, ?_, ?_, ?_, by decide, by decide, by decide⟩
  · intro p jd
    rw [ResumeAnalyzer.missingKeywords, ResumeAnalyzer.extractKeywords, List.filter_filter]
    apply List.filter_congr
    intro k _
    exact Bool.and_comm _ _
  · intro a p jd h
    simp [ResumeAnalyzer.analyzeJobMatch, ResumeAnalyzer.enhanceJobMatchAnalysis,
      List.length_pos, h]
  · intro a p jd h
    simp [ResumeAnalyzer.analyzeJobMatch, ResumeAnalyzer.enhanceJobMatchAnalysis, h]

/-- C5 witness: the warning-append clause applied at the concrete example. -/
theorem jobmatch_enhancement_witness :
    ResumeAnalyzer.missingKeywords pPythonOnly "Python, Docker, Leadership" ≠ [] ∧
    (ResumeAnalyzer.analyzeJobMatch aJobMatch pPythonOnly "Python, Docker, Leadership").suggestions =
      aJobMatch.suggestions ++ [ResumeAnalyzer.missingSkillsSuggestion
        (ResumeAnalyzer.missingKeywords pPythonOnly "Python, Docker, Leadership")] :=
  ⟨by decide,
    jobmatch_enhancement.2.2.1 aJobMatch pPythonOnly "Python, Docker, Leadership" (by decide)⟩

/-! ### C10 — substring-based keyword matching -/

/-- C10: keyword detection is case-insensitive substring containment, not
whole-word matching: any job text containing `JavaScript` makes
`extractKeywords` report both `JavaScript` and `Java`, and any resume whose
serialization contains `javascript` is counted as containing `Java`, so
`Java` never appears in its `missingKeywords`. -/
theorem keyword_match_by_substring :
    (∀ jd : String, includesStr jd "JavaScript" = true →
      "JavaScript" ∈ ResumeAnalyzer.extractKeywords jd ∧
      "Java" ∈ ResumeAnalyzer.extractKeywords jd) ∧
    (∀ (p : ParsedResume) (jd : String), includesStr (stringifyResume p) "javascript" = true →
      "Java" ∉ ResumeAnalyzer.missingKeywords p jd) := by
  have hpre : (lowerStr "Java").data <+: (lowerStr "JavaScript").data := ⟨"script".data, rfl⟩
  constructor
  · intro jd h
    have hjs : includesStr (lowerStr jd) (lowerStr "JavaScript") = true := includesStr_lower _ _ h
    have hjava : includesStr (lowerStr jd) (lowerStr "Java") = true :=
      includesStr_of_prefix _ _ _ hpre hjs
    constructor
    · rw [ResumeAnalyzer.extractKeywords, List.mem_filter]
      exact ⟨by decide, hjs⟩
    · rw [ResumeAnalyzer.extractKeywords, List.mem_filter]
      exact ⟨by decide, hjava⟩
  · intro p jd h hmem
    have hlowered : includesStr (lowerStr (stringifyResume p)) (lowerStr "javascript") = true :=
      includesStr_lower _ _ h
    have hjava : includesStr (lowerStr (stringifyResume p)) (lowerStr "Java") = true := by
      refine includesStr_of_prefix _ _ (lowerStr "javascript") ?_ hlowered
      exact ⟨"script".data, rfl⟩
    rw [ResumeAnalyzer.missingKeywords, List.mem_filter] at hmem
    rw [hjava] at hmem
    simp at hmem

/-- C10 witness: both clauses applied at concrete inputs. -/
theorem keyword_match_by_substring_witness :
    (includesStr "Senior JavaScript developer" "JavaScript" = true ∧
      "Java" ∈ ResumeAnalyzer.extractKeywords "Senior JavaScript developer") ∧
    (includesStr (stringifyResume pJsResume) "javascript" = true ∧
      "Java" ∉ ResumeAnalyzer.missingKeywords pJsResume "Java required") :=
  ⟨⟨by decide, (keyword_match_by_substring.1 "Senior JavaScript developer" (by decide)).2⟩,
   ⟨by decide, keyword_match_by_substring.2 pJsResume "Java required" (by decide)⟩⟩

end ResumeForge
